import Mathlib

set_option maxHeartbeats 1000000
set_option linter.unusedVariables false

/-!
Verification development for the contract-risk analysis repository.

The core of the repository is `analyze_contract_with_gemini` in `src/analyzer.py`:
it sends contract text to a remote generative model, cleans the textual
response (markdown-fence stripping), parses it as JSON, normalizes the shape
of the parsed value, and validates it into a `ContractAnalysys` pydantic
model, converting every failure into a diagnostic one-finding result.
`src/parser.py` extracts text from PDF files with an OCR fallback.

Modelling conventions:
* Python strings are lists of characters (`PyStr`).
* The remote model call (`client.models.generate_content`) is an external
  collaborator; its observable behaviour is a `RemoteOutcome` value: either
  it raised an exception with a message, returned a response whose `.text`
  is `None`, or returned a response with a text payload.
* `json.loads` is the Python standard library, not repository code; it is
  modelled as an oracle parameter `parse : PyStr → Except PyStr Json`
  (error value = the `str` of the raised `json.JSONDecodeError`).
* The pydantic construction `ContractAnalysys(**x)` is modelled by
  `buildContractAnalysys`, following Python `**`-splat semantics (a
  `TypeError` for non-mappings) and pydantic v2 field validation.
-/

/-- Python strings, modelled as lists of characters. -/
abbrev PyStr := List Char

/-- Conversion from a Lean string literal to the character-list model. -/
def lit (s : String) : PyStr := s.toList

/-- The ASCII whitespace characters removed by Python `str.strip()`. -/
def isWS (c : Char) : Bool :=
  c == ' ' || c == '\t' || c == '\n' || c == '\r' || c == '\x0b' || c == '\x0c'

/-- Removal of leading whitespace (left half of Python `str.strip()`). -/
def trimL (s : PyStr) : PyStr := s.dropWhile isWS

/-- Removal of trailing whitespace (right half of Python `str.strip()`). -/
def trimR (s : PyStr) : PyStr := (s.reverse.dropWhile isWS).reverse

/-- Python `str.strip()`: remove leading and trailing whitespace. -/
def pyStrip (s : PyStr) : PyStr := trimR (trimL s)

/-- Python `str.startswith`. -/
def pyStartsWith (pre s : PyStr) : Bool := decide (pre <+: s)

/-- Python `str.endswith`. -/
def pyEndsWith (suf s : PyStr) : Bool := decide (suf <:+ s)

/-- Python substring containment (the `in` operator on `str`). -/
def pyContains (sub s : PyStr) : Bool := decide (sub <:+: s)

/-- Python slicing `s[:-n]`, used only where `s` is known to end with an
`n`-character suffix (so `len(s) >= n`). -/
def pyDropEnd (n : Nat) (s : PyStr) : PyStr := s.take (s.length - n)

/-- JSON values as produced by `json.loads`: `null`, booleans, numbers,
strings, arrays and objects.  Numbers are modelled as integers; no claim
depends on numeric content, only on a value being a scalar. -/
inductive Json where
  | null
  | bool (b : Bool)
  | num (n : Int)
  | str (s : PyStr)
  | arr (elems : List Json)
  | obj (fields : List (PyStr × Json))

/-- Scalar test: true exactly for JSON scalars, neither an object nor an array. -/
def Json.isScalar : Json → Bool
  | .null => true
  | .bool _ => true
  | .num _ => true
  | .str _ => true
  | .arr _ => false
  | .obj _ => false

/-- From `src/models.py`: `ContractRisk`, one identified contract risk with four
required string fields. -/
structure ContractRisk where
  risk_type : PyStr
  clause_text : PyStr
  explanation : PyStr
  remediation_suggestion : PyStr
deriving DecidableEq

/-- From `src/models.py`: `ContractAnalysys`, the root schema holding the list of
identified risks. -/
structure ContractAnalysys where
  risks : List ContractRisk
deriving DecidableEq

/-- Python exceptions as distinguished by the two `except` clauses of
`analyze_contract_with_gemini`: a `json.JSONDecodeError` versus any other
`Exception`; in either case only `str(e)` is observable downstream. -/
inductive PyExc where
  | jsonDecodeError (msg : PyStr)
  | otherError (msg : PyStr)
deriving DecidableEq

/-- Key lookup in a JSON object, mirroring Python `dict` indexing and the
`in` test on `dict` keys (`json.loads` produces unique keys). -/
def jLookup (k : PyStr) : List (PyStr × Json) → Option Json
  | [] => none
  | (k', v) :: rest => if k' == k then some v else jLookup k rest

/-- Modelled from Python call semantics: the message of the `TypeError`
raised by `ContractAnalysys(**x)` when `x` is not a mapping (for example a
list or a scalar). -/
def typeErrorMsg : PyStr :=
  lit "ContractAnalysys() argument after ** must be a mapping"

/-- Modelled from the pydantic library: the `str` of the `ValidationError`
raised when the keyword arguments do not match the `ContractAnalysys`
schema; it begins with a line naming the model. -/
def validationErrorMsg : PyStr :=
  lit "1 validation error for ContractAnalysys"

/-- pydantic validation of a single entry of the `risks` list: it must be a
mapping providing all four required fields as strings (extra keys are
ignored, per the default pydantic configuration). -/
def validateRisk (j : Json) : Option ContractRisk :=
  match j with
  | .obj fields =>
    match jLookup (lit "risk_type") fields, jLookup (lit "clause_text") fields,
          jLookup (lit "explanation") fields,
          jLookup (lit "remediation_suggestion") fields with
    | some (.str a), some (.str b), some (.str c), some (.str d) =>
      some ⟨a, b, c, d⟩
    | _, _, _, _ => none
  | _ => none

/-- pydantic validation of the whole `risks` list, element by element. -/
def validateRisks : List Json → Option (List ContractRisk)
  | [] => some []
  | j :: rest =>
    match validateRisk j, validateRisks rest with
    | some r, some rs => some (r :: rs)
    | _, _ => none

/-- The model of `ContractAnalysys(**final_data_for_pydantic)`:
a non-mapping argument raises a `TypeError` (caught upstream as a generic
`Exception`), a mapping is validated by pydantic against the schema
(`risks` present, a list, every entry a valid `ContractRisk`). -/
def buildContractAnalysys (j : Json) : Except PyExc ContractAnalysys :=
  match j with
  | .obj fields =>
    match jLookup (lit "risks") fields with
    | some (.arr items) =>
      match validateRisks items with
      | some rs => .ok ⟨rs⟩
      | none => .error (.otherError validationErrorMsg)
    | some _ => .error (.otherError validationErrorMsg)
    | none => .error (.otherError validationErrorMsg)
  | _ => .error (.otherError typeErrorMsg)

/-- The opening fence with language tag stripped at `analyzer.py` line 59. -/
def fenceJson : PyStr := lit "```json"

/-- The bare triple-backtick fence stripped at `analyzer.py` lines 61-64. -/
def fence : PyStr := lit "```"

/-- From `analyzer.py` lines 57-65: `response.text.strip()`, removal of a leading
markdown fence (JSON-tagged variant first, 7 characters, then the generic
3-character variant), removal of a trailing fence, and a final strip. -/
def cleanResponse (raw : PyStr) : PyStr :=
  let t0 := pyStrip raw
  let t1 := if pyStartsWith fenceJson t0 then t0.drop 7 else t0
  let t2 := if pyStartsWith fence t1 then t1.drop 3 else t1
  let t3 := if pyEndsWith fence t2 then pyDropEnd 3 t2 else t2
  pyStrip t3

/-- From `analyzer.py` lines 69-88: shape normalization of the parsed JSON value.
Applied only when the value is a dict: unwrap a single-key envelope whose
value is a dict containing `"risks"`, then, if `"risks"` maps to a list,
keep only that key; the final `elif` of the source (wrapping a bare list) is
mirrored even though it is unreachable, being nested inside the dict
branch. -/
def normalizeShape (parsed_json : Json) : Json :=
  match parsed_json with
  | .obj fields =>
    let finalData : Json :=
      match fields with
      | [(_rootKey, .obj inner)] =>
        if (jLookup (lit "risks") inner).isSome then .obj inner else .obj fields
      | _ => .obj fields
    match finalData with
    | .obj f2 =>
      match jLookup (lit "risks") f2 with
      | some (.arr xs) => .obj [(lit "risks", .arr xs)]
      | _ =>
        match finalData with
        | .arr _ => .obj [(lit "risks", finalData)]
        | _ => finalData
    | _ => finalData
  | p => p

/-- From `analyzer.py` lines 92-100: the `except json.JSONDecodeError` handler.
At this point `response_text` holds the cleaned response. -/
def jsonDecodeHandler (response_text errMsg : PyStr) : ContractAnalysys :=
  ⟨[⟨lit "Analysis Error (JSON Decode)",
     lit "Raw Response Start: " ++ response_text.take 100 ++ lit "...",
     lit "Failed to analyze LLM response. The model did not return valid JSON. Error: " ++ errMsg,
     lit "Try again or use a \x27Pro\x27 model."⟩]⟩

/-- From `analyzer.py` lines 103-107: substring-based classification of the
message of a generic exception. -/
def classifyError (msg : PyStr) : PyStr :=
  if pyContains (lit "API key not valid") msg || pyContains (lit "UNAUTHENTICATED") msg then
    lit "Invalid or missing Google AI API key."
  else if pyContains (lit "validation error for ContractAnalysys") msg then
    lit "Pydantic validation error: JSON structure does not match expected schema. " ++ msg
  else msg

/-- From `analyzer.py` lines 102-116: the `except Exception` handler. -/
def genericHandler (msg : PyStr) : ContractAnalysys :=
  ⟨[⟨lit "System/Validation Error",
     lit "N/A",
     lit "Error during analysis: " ++ classifyError msg,
     lit "Verify API key and connection. If LLM fails, try a more robust model (1.5 Pro)."⟩]⟩

/-- The observable behaviour of the remote model call
`client.models.generate_content(...)`: it raised an exception with the
given message, returned a response whose `.text` is `None`, or returned a
response with the given text payload. -/
inductive RemoteOutcome where
  | raises (msg : PyStr)
  | returnsNone
  | returns (text : PyStr)

/-- Modelled from Python semantics: the `AttributeError` message for
`None.strip()`, raised when the response `.text` is `None`. -/
def noneStripMsg : PyStr :=
  lit "\x27NoneType\x27 object has no attribute \x27strip\x27"

/-- From `analyzer.py` lines 29-116: `analyze_contract_with_gemini`.
The `contract_text`, `api_key` and `model` arguments flow only into the
remote request, whose observable behaviour is abstracted by `outcome`;
`parse` is the `json.loads` oracle.  The result is `Except`-valued so that
an exception escaping the function would be visible as `.error`; the
`try`/`except` structure of the source is mirrored: exceptions of the body
are dispatched to the `json.JSONDecodeError` handler or the generic
`Exception` handler. -/
def analyze_contract_with_gemini (parse : PyStr → Except PyStr Json)
    (contract_text api_key model : PyStr) (outcome : RemoteOutcome) :
    Except PyExc ContractAnalysys :=
  match outcome with
  | .raises msg => .ok (genericHandler msg)
  | .returnsNone => .ok (genericHandler noneStripMsg)
  | .returns text =>
    let response_text := cleanResponse text
    match parse response_text with
    | .error e => .ok (jsonDecodeHandler response_text e)
    | .ok parsed_json =>
      match buildContractAnalysys (normalizeShape parsed_json) with
      | .ok analysis => .ok analysis
      | .error (.jsonDecodeError e) => .ok (jsonDecodeHandler response_text e)
      | .error (.otherError msg) => .ok (genericHandler msg)

/-- From `analyzer.py` line 6. -/
def DEFAULT_MODEL : PyStr := lit "gemini-1.5-flash-latest"

/-- From `analyzer.py` lines 119-129: the Pro-model preset entry point. -/
def analyze_contract_with_gemini_pro (parse : PyStr → Except PyStr Json)
    (contract_text api_key : PyStr) (outcome : RemoteOutcome) :
    Except PyExc ContractAnalysys :=
  analyze_contract_with_gemini parse contract_text api_key
    (lit "gemini-1.5-pro-latest") outcome

/-- The Python exception classes that `extract_text_from_pdf` can let
escape, each carrying its `str` message. -/
inductive ParserExc where
  | fileNotFoundError (msg : PyStr)
  | runtimeError (msg : PyStr)
  | valueError (msg : PyStr)
deriving DecidableEq

/-- The Python class name of an escaping exception, used to state which
failure *condition* a caller can distinguish. -/
def ParserExc.className : ParserExc → PyStr
  | .fileNotFoundError _ => lit "FileNotFoundError"
  | .runtimeError _ => lit "RuntimeError"
  | .valueError _ => lit "ValueError"

/-- From `parser.py` lines 28-29: `"\n\n".join(p.strip() for p in pages_text if p
and p.strip())` — keep the pages that are non-empty and not pure
whitespace, strip each, join with a blank line. -/
def joinPages (pages_text : List PyStr) : PyStr :=
  List.intercalate (lit "\n\n")
    ((pages_text.filter (fun p => ! p.isEmpty && ! (pyStrip p).isEmpty)).map pyStrip)

/-- From `parser.py` lines 6-39: `extract_text_from_pdf`.
The filesystem and the two libraries are external collaborators:
`pathExists` abstracts `path.exists()`, `pdf` the behaviour of reading the
document with PyMuPDF (either an exception message or the per-page text
layer), and `ocr` the behaviour of the `extract_text_from_image` fallback
(either an exception message or the recognized text).  In the source, the
statement raising the no-text `ValueError` sits inside the outer `try`, so
it is caught by `except Exception` and re-raised as the `RuntimeError`
whose message embeds the no-text message. -/
def extract_text_from_pdf (pathExists : Bool) (pdf : Except PyStr (List PyStr))
    (ocr : Except PyStr PyStr) (path : PyStr) : Except ParserExc PyStr :=
  if ! pathExists then
    .error (.fileNotFoundError (lit "PDF file not found: " ++ path))
  else
    match pdf with
    | .error e =>
      .error (.runtimeError (lit "Failed to extract text from PDF using PyMuPDF: " ++ e))
    | .ok pages_text =>
      let full_text := joinPages pages_text
      if (pyStrip full_text).isEmpty then
        match ocr with
        | .ok t => .ok t
        | .error _ =>
          .error (.runtimeError
            (lit "Failed to extract text from PDF using PyMuPDF: No text found in the PDF"))
      else .ok full_text

/-- The JSON object encoding a finding with exactly the four required
string fields; used to state which responses are well-formed findings
lists. -/
def riskToJson (r : ContractRisk) : Json :=
  .obj [(lit "risk_type", .str r.risk_type),
        (lit "clause_text", .str r.clause_text),
        (lit "explanation", .str r.explanation),
        (lit "remediation_suggestion", .str r.remediation_suggestion)]

theorem validateRisk_riskToJson (r : ContractRisk) :
    validateRisk (riskToJson r) = some r := by
  simp +decide [validateRisk, riskToJson, jLookup]

theorem validateRisks_map (rs : List ContractRisk) :
    validateRisks (rs.map riskToJson) = some rs := by
  induction rs with
  | nil => rfl
  | cons r rest ih => simp [validateRisks, validateRisk_riskToJson, ih]

/-- Claim C1: for every document text, credentials string and model name,
and for every behaviour of the remote model call (an exception with any
message, a `None` text, or any text payload) and any behaviour of the JSON
parser, `analyze_contract_with_gemini` returns a `ContractAnalysys` value
wrapped in `.ok`: no exception escapes to the caller. -/
theorem analyze_never_raises (parse : PyStr → Except PyStr Json)
    (contract_text api_key model : PyStr) (outcome : RemoteOutcome) :
    ∃ a : ContractAnalysys,
      analyze_contract_with_gemini parse contract_text api_key model outcome = .ok a := by
  cases outcome with
  | raises msg => exact ⟨_, rfl⟩
  | returnsNone => exact ⟨_, rfl⟩
  | returns text =>
    cases hp : parse (cleanResponse text) with
    | error e =>
      exact ⟨jsonDecodeHandler (cleanResponse text) e,
        by simp [analyze_contract_with_gemini, hp]⟩
    | ok j =>
      cases hb : buildContractAnalysys (normalizeShape j) with
      | ok a => exact ⟨a, by simp [analyze_contract_with_gemini, hp, hb]⟩
      | error e =>
        cases e with
        | jsonDecodeError m =>
          exact ⟨jsonDecodeHandler (cleanResponse text) m,
            by simp [analyze_contract_with_gemini, hp, hb]⟩
        | otherError m =>
          exact ⟨genericHandler m, by simp [analyze_contract_with_gemini, hp, hb]⟩

/-- Claim C3: when the cleaned response parses as the JSON object
`{"risks": L}` with `L` a list of objects each carrying the four required
string fields, the analyzer returns exactly those findings, in order, all
four fields preserved. -/
theorem analyze_wellformed_object (parse : PyStr → Except PyStr Json)
    (contract_text api_key model raw : PyStr) (rs : List ContractRisk)
    (h : parse (cleanResponse raw) =
      .ok (.obj [(lit "risks", .arr (rs.map riskToJson))])) :
    analyze_contract_with_gemini parse contract_text api_key model (.returns raw) =
      .ok ⟨rs⟩ := by
  simp only [analyze_contract_with_gemini, h]
  simp +decide [normalizeShape, buildContractAnalysys, jLookup, validateRisks_map]

/-- Claim C4: when the cleaned response parses as a JSON object with exactly
one top-level key whose value is itself an object binding `"risks"` to a
well-formed findings list, the analyzer unwraps the envelope and returns
exactly the inner findings unchanged. -/
theorem analyze_unwraps_envelope (parse : PyStr → Except PyStr Json)
    (contract_text api_key model raw k : PyStr) (inner : List (PyStr × Json))
    (rs : List ContractRisk)
    (hin : jLookup (lit "risks") inner = some (.arr (rs.map riskToJson)))
    (h : parse (cleanResponse raw) = .ok (.obj [(k, .obj inner)])) :
    analyze_contract_with_gemini parse contract_text api_key model (.returns raw) =
      .ok ⟨rs⟩ := by
  simp only [analyze_contract_with_gemini, h]
  simp +decide [normalizeShape, buildContractAnalysys, jLookup, hin, validateRisks_map]

theorem pyContains_iff (sub s : PyStr) : pyContains sub s = true ↔ sub <:+: s := by
  simp [pyContains]

/-- The fixed explanation text produced for an authentication failure. -/
def authExplanation : PyStr :=
  lit "Error during analysis: " ++ lit "Invalid or missing Google AI API key."

/-- Claim C6: for every exception raised by the remote call whose message
contains `"API key not valid"` or `"UNAUTHENTICATED"`, the analyzer returns
exactly one finding with risk type `"System/Validation Error"` whose
explanation contains the fixed text `"Invalid or missing Google AI API
key"` and does not contain the raw provider message. -/
theorem analyze_auth_exception (parse : PyStr → Except PyStr Json)
    (contract_text api_key model msg : PyStr)
    (h : pyContains (lit "API key not valid") msg = true ∨
         pyContains (lit "UNAUTHENTICATED") msg = true) :
    ∃ f : ContractRisk,
      analyze_contract_with_gemini parse contract_text api_key model (.raises msg) =
        .ok ⟨[f]⟩ ∧
      f.risk_type = lit "System/Validation Error" ∧
      pyContains (lit "Invalid or missing Google AI API key") f.explanation = true ∧
      pyContains msg f.explanation = false := by
  have hc : classifyError msg = lit "Invalid or missing Google AI API key." := by
    rcases h with h | h <;> simp [classifyError, h]
  refine ⟨⟨lit "System/Validation Error", lit "N/A", authExplanation,
    lit "Verify API key and connection. If LLM fails, try a more robust model (1.5 Pro)."⟩,
    ?_, rfl, by decide, ?_⟩
  · simp [analyze_contract_with_gemini, genericHandler, hc, authExplanation]
  · cases hb : pyContains msg authExplanation with
    | false => rfl
    | true =>
      exfalso
      have h2 : msg <:+: authExplanation := (pyContains_iff _ _).1 hb
      rcases h with h | h
      · have h1 := ((pyContains_iff _ _).1 h).trans h2
        have h3 : pyContains (lit "API key not valid") authExplanation = true :=
          (pyContains_iff _ _).2 h1
        exact absurd h3 (by decide)
      · have h1 := ((pyContains_iff _ _).1 h).trans h2
        have h3 : pyContains (lit "UNAUTHENTICATED") authExplanation = true :=
          (pyContains_iff _ _).2 h1
        exact absurd h3 (by decide)

theorem analyze_auth_exception_witness :
    (pyContains (lit "API key not valid")
        (lit "401 UNAUTHENTICATED. API key not valid.") = true ∨
      pyContains (lit "UNAUTHENTICATED")
        (lit "401 UNAUTHENTICATED. API key not valid.") = true) ∧
    (∃ f : ContractRisk,
      analyze_contract_with_gemini (fun _ => .ok Json.null) [] [] []
          (.raises (lit "401 UNAUTHENTICATED. API key not valid.")) = .ok ⟨[f]⟩ ∧
      f.risk_type = lit "System/Validation Error" ∧
      pyContains (lit "Invalid or missing Google AI API key") f.explanation = true ∧
      pyContains (lit "401 UNAUTHENTICATED. API key not valid.") f.explanation = false) :=
  ⟨Or.inl (by decide),
   analyze_auth_exception (fun _ => .ok Json.null) [] [] [] _ (Or.inl (by decide))⟩

/-- Claim C9: when an exception message contains both an authentication
substring and the pydantic marker `"validation error for ContractAnalysys"`,
the authentication classification takes precedence: the explanation is the
fixed credential text and does not carry the schema-mismatch prefix
`"Pydantic validation error:"`. -/
theorem analyze_auth_precedence (parse : PyStr → Except PyStr Json)
    (contract_text api_key model msg : PyStr)
    (h1 : pyContains (lit "API key not valid") msg = true ∨
          pyContains (lit "UNAUTHENTICATED") msg = true)
    (h2 : pyContains (lit "validation error for ContractAnalysys") msg = true) :
    ∃ f : ContractRisk,
      analyze_contract_with_gemini parse contract_text api_key model (.raises msg) =
        .ok ⟨[f]⟩ ∧
      pyContains (lit "Invalid or missing Google AI API key") f.explanation = true ∧
      pyContains (lit "Pydantic validation error:") f.explanation = false := by
  have hc : classifyError msg = lit "Invalid or missing Google AI API key." := by
    rcases h1 with h | h <;> simp [classifyError, h]
  refine ⟨⟨lit "System/Validation Error", lit "N/A", authExplanation,
    lit "Verify API key and connection. If LLM fails, try a more robust model (1.5 Pro)."⟩,
    ?_, by decide, by decide⟩
  simp [analyze_contract_with_gemini, genericHandler, hc, authExplanation]

theorem analyze_auth_precedence_witness :
    (pyContains (lit "API key not valid")
        (lit "API key not valid: 1 validation error for ContractAnalysys") = true ∨
      pyContains (lit "UNAUTHENTICATED")
        (lit "API key not valid: 1 validation error for ContractAnalysys") = true) ∧
    pyContains (lit "validation error for ContractAnalysys")
      (lit "API key not valid: 1 validation error for ContractAnalysys") = true ∧
    (∃ f : ContractRisk,
      analyze_contract_with_gemini (fun _ => .ok Json.null) [] [] []
          (.raises (lit "API key not valid: 1 validation error for ContractAnalysys")) =
        .ok ⟨[f]⟩ ∧
      pyContains (lit "Invalid or missing Google AI API key") f.explanation = true ∧
      pyContains (lit "Pydantic validation error:") f.explanation = false) :=
  ⟨Or.inl (by decide), by decide,
   analyze_auth_precedence (fun _ => .ok Json.null) [] [] [] _
     (Or.inl (by decide)) (by decide)⟩

/-- Claim C10: when the cleaned response parses as a JSON scalar (null,
boolean, number or string), the analyzer does not raise; shape
normalization leaves the scalar unchanged, the `**`-splat raises a
`TypeError` caught by the generic handler, and the result has exactly one
finding with risk type `"System/Validation Error"`. -/
theorem analyze_scalar_response (parse : PyStr → Except PyStr Json)
    (contract_text api_key model raw : PyStr) (j : Json)
    (hs : j.isScalar = true)
    (h : parse (cleanResponse raw) = .ok j) :
    ∃ f : ContractRisk,
      analyze_contract_with_gemini parse contract_text api_key model (.returns raw) =
        .ok ⟨[f]⟩ ∧
      f.risk_type = lit "System/Validation Error" := by
  refine ⟨⟨lit "System/Validation Error", lit "N/A",
    lit "Error during analysis: " ++ classifyError typeErrorMsg,
    lit "Verify API key and connection. If LLM fails, try a more robust model (1.5 Pro)."⟩,
    ?_, rfl⟩
  cases j with
  | null => simp [analyze_contract_with_gemini, h, normalizeShape,
      buildContractAnalysys, genericHandler]
  | bool b => simp [analyze_contract_with_gemini, h, normalizeShape,
      buildContractAnalysys, genericHandler]
  | num n => simp [analyze_contract_with_gemini, h, normalizeShape,
      buildContractAnalysys, genericHandler]
  | str s => simp [analyze_contract_with_gemini, h, normalizeShape,
      buildContractAnalysys, genericHandler]
  | arr l => exact absurd hs (by simp [Json.isScalar])
  | obj l => exact absurd hs (by simp [Json.isScalar])

theorem analyze_scalar_response_witness :
    (Json.num 5).isScalar = true ∧
    (∃ f : ContractRisk,
      analyze_contract_with_gemini (fun _ => .ok (Json.num 5)) [] [] []
          (.returns (lit "5")) = .ok ⟨[f]⟩ ∧
      f.risk_type = lit "System/Validation Error") :=
  ⟨rfl, analyze_scalar_response (fun _ => .ok (Json.num 5)) [] [] [] _ (Json.num 5) rfl rfl⟩

/-- Claim C2, evaluated at the failing input: a response whose cleaned text
parses as a bare JSON array of well-formed findings.  In the source, the
wrap-a-bare-list branch is nested inside `isinstance(parsed_json, dict)`
and therefore never runs; `ContractAnalysys(**list)` raises a `TypeError`
and the analyzer returns a single `"System/Validation Error"` finding
instead of the entries of the array. -/
theorem analyze_bare_array_behavior :
    analyze_contract_with_gemini
        (fun _ => .ok (Json.arr [riskToJson ⟨lit "t", lit "c", lit "e", lit "r"⟩]))
        [] [] [] (.returns (lit "bare array response")) =
      .ok (genericHandler typeErrorMsg) ∧
    genericHandler typeErrorMsg ≠
      ContractAnalysys.mk [⟨lit "t", lit "c", lit "e", lit "r"⟩] ∧
    (genericHandler typeErrorMsg).risks.map ContractRisk.risk_type =
      [lit "System/Validation Error"] :=
  ⟨rfl, by decide, rfl⟩

theorem analyze_wellformed_object_witness :
    ((fun _ : PyStr => (Except.ok (Json.obj [(lit "risks",
        Json.arr [riskToJson ⟨lit "t", lit "c", lit "e", lit "r"⟩])]) : Except PyStr Json))
      (cleanResponse (lit "resp")) =
      Except.ok (Json.obj [(lit "risks",
        Json.arr (List.map riskToJson [⟨lit "t", lit "c", lit "e", lit "r"⟩]))])) ∧
    analyze_contract_with_gemini
        (fun _ => Except.ok (Json.obj [(lit "risks",
          Json.arr [riskToJson ⟨lit "t", lit "c", lit "e", lit "r"⟩])]))
        [] [] [] (.returns (lit "resp")) =
      .ok ⟨[⟨lit "t", lit "c", lit "e", lit "r"⟩]⟩ :=
  ⟨rfl, analyze_wellformed_object _ [] [] [] (lit "resp")
    [⟨lit "t", lit "c", lit "e", lit "r"⟩] rfl⟩

theorem analyze_unwraps_envelope_witness :
    jLookup (lit "risks")
        [(lit "note", Json.str (lit "extra")),
         (lit "risks", Json.arr [riskToJson ⟨lit "t", lit "c", lit "e", lit "r"⟩])] =
      some (Json.arr (List.map riskToJson [⟨lit "t", lit "c", lit "e", lit "r"⟩])) ∧
    ((fun _ : PyStr => (Except.ok (Json.obj [(lit "contract_analysis",
        Json.obj [(lit "note", Json.str (lit "extra")),
          (lit "risks", Json.arr [riskToJson ⟨lit "t", lit "c", lit "e", lit "r"⟩])])])
        : Except PyStr Json))
      (cleanResponse (lit "resp")) =
      Except.ok (Json.obj [(lit "contract_analysis",
        Json.obj [(lit "note", Json.str (lit "extra")),
          (lit "risks", Json.arr [riskToJson ⟨lit "t", lit "c", lit "e", lit "r"⟩])])])) ∧
    analyze_contract_with_gemini
        (fun _ => Except.ok (Json.obj [(lit "contract_analysis",
          Json.obj [(lit "note", Json.str (lit "extra")),
            (lit "risks", Json.arr [riskToJson ⟨lit "t", lit "c", lit "e", lit "r"⟩])])]))
        [] [] [] (.returns (lit "resp")) =
      .ok ⟨[⟨lit "t", lit "c", lit "e", lit "r"⟩]⟩ :=
  ⟨rfl, rfl,
   analyze_unwraps_envelope _ [] [] [] (lit "resp") (lit "contract_analysis")
     [(lit "note", Json.str (lit "extra")),
      (lit "risks", Json.arr [riskToJson ⟨lit "t", lit "c", lit "e", lit "r"⟩])]
     [⟨lit "t", lit "c", lit "e", lit "r"⟩] rfl rfl⟩

/-- Claim C8 (amended): `extract_text_from_pdf` fails with the distinct
`FileNotFoundError` condition when the path does not exist; it falls back
to optical-character-recognition when the native text layer yields no
usable text; when that fallback raises, the intended no-text-found
`ValueError` is swallowed by the outer handler, so the function fails with
the *same* `RuntimeError` extraction-failure condition as a library error,
its message embedding `"No text found in the PDF"`; a library error fails
with `RuntimeError`. -/
theorem extract_text_from_pdf_conditions :
    (∀ pdf ocr path, extract_text_from_pdf false pdf ocr path =
      .error (.fileNotFoundError (lit "PDF file not found: " ++ path))) ∧
    (∀ pdf ocr path m, extract_text_from_pdf false pdf ocr path ≠
      .error (.runtimeError m)) ∧
    (∀ pages t path, (pyStrip (joinPages pages)).isEmpty = true →
      extract_text_from_pdf true (.ok pages) (.ok t) path = .ok t) ∧
    (∀ pages m path, (pyStrip (joinPages pages)).isEmpty = true →
      extract_text_from_pdf true (.ok pages) (.error m) path =
        .error (.runtimeError
          (lit "Failed to extract text from PDF using PyMuPDF: No text found in the PDF"))) ∧
    (∀ e ocr path, extract_text_from_pdf true (.error e) ocr path =
      .error (.runtimeError (lit "Failed to extract text from PDF using PyMuPDF: " ++ e))) := by
  refine ⟨fun pdf ocr path => rfl, fun pdf ocr path m => by simp [extract_text_from_pdf],
    fun pages t path h => ?_, fun pages m path h => ?_, fun e ocr path => rfl⟩
  · simp [extract_text_from_pdf, h]
  · simp [extract_text_from_pdf, h]

theorem extract_text_from_pdf_conditions_witness :
    (pyStrip (joinPages [lit "  "])).isEmpty = true ∧
    extract_text_from_pdf true (.ok [lit "  "]) (.ok (lit "ocr text")) (lit "a.pdf") =
      .ok (lit "ocr text") ∧
    extract_text_from_pdf true (.ok [lit "  "]) (.error (lit "ocr broke")) (lit "a.pdf") =
      .error (.runtimeError
        (lit "Failed to extract text from PDF using PyMuPDF: No text found in the PDF")) :=
  ⟨by decide,
   extract_text_from_pdf_conditions.2.2.1 [lit "  "] (lit "ocr text") (lit "a.pdf") (by decide),
   extract_text_from_pdf_conditions.2.2.2.1 [lit "  "] (lit "ocr broke") (lit "a.pdf") (by decide)⟩

/-- Claim C8, refuted as stated: at a concrete input where the native text
layer is empty and the OCR fallback raises, the function fails with the
`RuntimeError` class — the very extraction-failure condition raised for a
library error — not with a distinct no-text-found condition. -/
theorem extract_no_text_counterexample :
    extract_text_from_pdf true (.ok []) (.error (lit "ocr failed")) (lit "doc.pdf") =
      .error (.runtimeError
        (lit "Failed to extract text from PDF using PyMuPDF: No text found in the PDF")) ∧
    extract_text_from_pdf true (.error (lit "corrupt file")) (.ok (lit "x")) (lit "doc.pdf") =
      .error (.runtimeError
        (lit "Failed to extract text from PDF using PyMuPDF: " ++ lit "corrupt file")) ∧
    ParserExc.className (.runtimeError
        (lit "Failed to extract text from PDF using PyMuPDF: No text found in the PDF")) =
      ParserExc.className (.runtimeError
        (lit "Failed to extract text from PDF using PyMuPDF: " ++ lit "corrupt file")) ∧
    (∀ m, ParserExc.className (.runtimeError
        (lit "Failed to extract text from PDF using PyMuPDF: No text found in the PDF")) ≠
      ParserExc.className (.valueError m)) := by
  refine ⟨rfl, rfl, rfl, fun m => by
    show lit "RuntimeError" ≠ lit "ValueError"
    decide⟩

theorem pyStartsWith_iff (pre s : PyStr) : pyStartsWith pre s = true ↔ pre <+: s := by
  simp [pyStartsWith]

theorem pyEndsWith_iff (suf s : PyStr) : pyEndsWith suf s = true ↔ suf <:+ s := by
  simp [pyEndsWith]

theorem dropWhile_idem (q : Char → Bool) (l : PyStr) :
    (l.dropWhile q).dropWhile q = l.dropWhile q := by
  induction l with
  | nil => rfl
  | cons a l ih =>
    rw [List.dropWhile_cons]
    by_cases h : q a
    · rw [if_pos h]; exact ih
    · rw [if_neg h, List.dropWhile_cons, if_neg h]

theorem dropWhile_head_false {a : Char} {as l : PyStr}
    (h : l.dropWhile isWS = a :: as) : isWS a = false := by
  induction l with
  | nil => cases h
  | cons x xs ih =>
    rw [List.dropWhile_cons] at h
    by_cases hx : isWS x
    · rw [if_pos hx] at h; exact ih h
    · rw [if_neg hx] at h
      cases h
      exact Bool.not_eq_true _ ▸ hx

theorem trimL_cons_not {c : Char} (h : isWS c = false) (x : PyStr) :
    trimL (c :: x) = c :: x := by
  simp [trimL, List.dropWhile_cons, h]

theorem trimR_append_not {c : Char} (h : isWS c = false) (x : PyStr) :
    trimR (x ++ [c]) = x ++ [c] := by
  simp [trimR, List.reverse_append, List.dropWhile_cons, h]

theorem trimR_prefix_self (v : PyStr) : trimR v <+: v := by
  rw [trimR, ← List.reverse_suffix, List.reverse_reverse]
  exact List.dropWhile_suffix isWS

theorem trimL_trimR_trimL (s : PyStr) : trimL (trimR (trimL s)) = trimR (trimL s) := by
  cases hu : trimR (trimL s) with
  | nil => rfl
  | cons b bs =>
    have hpre : trimR (trimL s) <+: trimL s := trimR_prefix_self _
    rw [hu] at hpre
    rcases hpre with ⟨t, ht⟩
    have hds : s.dropWhile isWS = b :: (bs ++ t) := by
      rw [← List.cons_append, ht]; rfl
    have hb : isWS b = false := dropWhile_head_false hds
    exact trimL_cons_not hb bs

theorem trimR_idem (v : PyStr) : trimR (trimR v) = trimR v := by
  rw [trimR, trimR, List.reverse_reverse, dropWhile_idem]

theorem pyStrip_idem (s : PyStr) : pyStrip (pyStrip s) = pyStrip s := by
  rw [pyStrip, pyStrip, trimL_trimR_trimL, trimR_idem]

theorem pyStrip_cons_ws {c : Char} (h : isWS c = true) (s : PyStr) :
    pyStrip (c :: s) = pyStrip s := by
  simp [pyStrip, trimL, List.dropWhile_cons, h]

theorem pyStrip_append_ws {c : Char} (h : isWS c = true) (s : PyStr) :
    pyStrip (s ++ [c]) = pyStrip s := by
  rw [pyStrip, pyStrip, trimL, trimL, List.dropWhile_append]
  cases hd : (s.dropWhile isWS).isEmpty with
  | true =>
    have hnil : s.dropWhile isWS = [] := by simpa using hd
    simp [hnil, List.dropWhile_cons, h]
  | false =>
    simp only [Bool.false_eq_true, if_false]
    simp [trimR, List.reverse_append, List.dropWhile_cons, h]

theorem pyStrip_eq_self_of {s : PyStr} (c d : Char) (x : PyStr)
    (hc : isWS c = false) (hd : isWS d = false)
    (hs : s = c :: (x ++ [d])) : pyStrip s = s := by
  subst hs
  rw [pyStrip, trimL_cons_not hc,
    show (c :: (x ++ [d])) = (c :: x) ++ [d] from by simp,
    trimR_append_not hd]

/-- A payload wrapped in markdown triple-backtick fences, with or without
the `json` language tag after the opening fence. -/
def fenceWrap (tag : Bool) (p : PyStr) : PyStr :=
  (if tag then lit "```json\n" else lit "```\n") ++ p ++ lit "\n```"

/-- When the stripped response neither starts nor ends with a fence, the
cleanup of `analyzer.py` lines 57-65 is just the strip. -/
theorem cleanResponse_of_no_fence (p : PyStr)
    (h1 : pyStartsWith fence (pyStrip p) = false)
    (h2 : pyEndsWith fence (pyStrip p) = false) :
    cleanResponse p = pyStrip p := by
  have h1' : pyStartsWith fenceJson (pyStrip p) = false := by
    cases hj : pyStartsWith fenceJson (pyStrip p) with
    | false => rfl
    | true =>
      exfalso
      have hpre := (pyStartsWith_iff _ _).1 hj
      have hf : fence <+: fenceJson := by decide
      have hc := (pyStartsWith_iff fence (pyStrip p)).2 (hf.trans hpre)
      rw [h1] at hc
      cases hc
  simp only [cleanResponse, h1', h1, h2, Bool.false_eq_true, if_false, pyStrip_idem]

/-- The cleanup of a fence-wrapped payload yields the stripped payload:
the strip leaves the fenced text unchanged, the leading fence (tagged or
not) is dropped, the trailing fence is dropped, and the final strip eats
the two newlines of the wrapping. -/
theorem cleanResponse_fence_wrapped (tag : Bool) (p : PyStr) :
    cleanResponse (fenceWrap tag p) = pyStrip p := by
  have hnl : isWS '\n' = true := by decide
  have hbt : isWS '\x60' = false := by decide
  have hfin : pyStrip ('\n' :: (p ++ ['\n'])) = pyStrip p := by
    rw [pyStrip_cons_ws hnl, pyStrip_append_ws hnl]
  have h3 : pyStartsWith fence ('\n'::(p ++ '\n':: '\x60':: '\x60':: '\x60'::[])) = false := by
    rw [show fence = ['\x60', '\x60', '\x60'] from by decide]
    simp +decide [pyStartsWith, List.cons_prefix_cons]
  have h4 : pyEndsWith fence ('\n'::(p ++ '\n':: '\x60':: '\x60':: '\x60'::[])) = true := by
    rw [show fence = ['\x60', '\x60', '\x60'] from by decide]
    rw [pyEndsWith, decide_eq_true_eq]
    exact ⟨'\n'::(p ++ ['\n']), by simp⟩
  have h5 : pyDropEnd 3 ('\n'::(p ++ '\n':: '\x60':: '\x60':: '\x60'::[])) = '\n'::(p ++ ['\n']) := by
    rw [show ('\n'::(p ++ '\n':: '\x60':: '\x60':: '\x60'::[])) =
      ('\n'::(p ++ ['\n'])) ++ ['\x60', '\x60', '\x60'] from by simp]
    rw [pyDropEnd, List.length_append,
      show (['\x60', '\x60', '\x60'] : PyStr).length = 3 from rfl,
      Nat.add_sub_cancel]
    exact List.take_left _ _
  cases tag with
  | true =>
    have hw : fenceWrap true p =
        '\x60':: '\x60':: '\x60':: 'j':: 's':: 'o':: 'n':: '\n'::(p ++ '\n':: '\x60':: '\x60':: '\x60'::[]) := by
      rw [fenceWrap, if_pos rfl,
        show lit "```json\n" = '\x60':: '\x60':: '\x60':: 'j':: 's':: 'o':: 'n':: '\n'::[] from by decide,
        show lit "\n```" = '\n':: '\x60':: '\x60':: '\x60'::[] from by decide]
      simp
    have h0 : pyStrip ('\x60':: '\x60':: '\x60':: 'j':: 's':: 'o':: 'n':: '\n'::(p ++ '\n':: '\x60':: '\x60':: '\x60'::[])) =
        '\x60':: '\x60':: '\x60':: 'j':: 's':: 'o':: 'n':: '\n'::(p ++ '\n':: '\x60':: '\x60':: '\x60'::[]) :=
      pyStrip_eq_self_of '\x60' '\x60'
        ('\x60':: '\x60':: 'j':: 's':: 'o':: 'n':: '\n'::(p ++ '\n':: '\x60':: '\x60'::[])) hbt hbt (by simp)
    have h1 : pyStartsWith fenceJson
        ('\x60':: '\x60':: '\x60':: 'j':: 's':: 'o':: 'n':: '\n'::(p ++ '\n':: '\x60':: '\x60':: '\x60'::[])) = true := by
      rw [show fenceJson = ['\x60', '\x60', '\x60', 'j', 's', 'o', 'n'] from by decide]
      simp +decide [pyStartsWith, List.cons_prefix_cons]
    have h2 : ('\x60':: '\x60':: '\x60':: 'j':: 's':: 'o':: 'n':: '\n'::(p ++ '\n':: '\x60':: '\x60':: '\x60'::[])).drop 7 =
        '\n'::(p ++ '\n':: '\x60':: '\x60':: '\x60'::[]) := rfl
    rw [hw]
    simp only [cleanResponse, h0, h1, if_true, h2, h3, Bool.false_eq_true, if_false, h4, h5, hfin]
  | false =>
    have hw : fenceWrap false p =
        '\x60':: '\x60':: '\x60':: '\n'::(p ++ '\n':: '\x60':: '\x60':: '\x60'::[]) := by
      rw [fenceWrap, if_neg (by simp),
        show lit "```\n" = '\x60':: '\x60':: '\x60':: '\n'::[] from by decide,
        show lit "\n```" = '\n':: '\x60':: '\x60':: '\x60'::[] from by decide]
      simp
    have h0 : pyStrip ('\x60':: '\x60':: '\x60':: '\n'::(p ++ '\n':: '\x60':: '\x60':: '\x60'::[])) =
        '\x60':: '\x60':: '\x60':: '\n'::(p ++ '\n':: '\x60':: '\x60':: '\x60'::[]) :=
      pyStrip_eq_self_of '\x60' '\x60'
        ('\x60':: '\x60':: '\n'::(p ++ '\n':: '\x60':: '\x60'::[])) hbt hbt (by simp)
    have h1 : pyStartsWith fenceJson
        ('\x60':: '\x60':: '\x60':: '\n'::(p ++ '\n':: '\x60':: '\x60':: '\x60'::[])) = false := by
      rw [show fenceJson = ['\x60', '\x60', '\x60', 'j', 's', 'o', 'n'] from by decide]
      simp +decide [pyStartsWith, List.cons_prefix_cons]
    have h1b : pyStartsWith fence
        ('\x60':: '\x60':: '\x60':: '\n'::(p ++ '\n':: '\x60':: '\x60':: '\x60'::[])) = true := by
      rw [show fence = ['\x60', '\x60', '\x60'] from by decide]
      simp +decide [pyStartsWith, List.cons_prefix_cons]
    have h2 : ('\x60':: '\x60':: '\x60':: '\n'::(p ++ '\n':: '\x60':: '\x60':: '\x60'::[])).drop 3 =
        '\n'::(p ++ '\n':: '\x60':: '\x60':: '\x60'::[]) := rfl
    rw [hw]
    simp only [cleanResponse, h0, h1, h1b, Bool.false_eq_true, if_false, if_true, h2, h3, h4, h5, hfin]

/-- Claim C7: wrapping a JSON payload in triple-backtick markdown fences
(with or without the `json` language tag) does not change the analysis
result, because the fences are stripped before JSON parsing.  The two
hypotheses say the payload is JSON text: serialized JSON never starts or
ends with a backtick once surrounding whitespace is stripped. -/
theorem analyze_fence_insensitive (parse : PyStr → Except PyStr Json)
    (contract_text api_key model p : PyStr) (tag : Bool)
    (h1 : pyStartsWith fence (pyStrip p) = false)
    (h2 : pyEndsWith fence (pyStrip p) = false) :
    analyze_contract_with_gemini parse contract_text api_key model
        (.returns (fenceWrap tag p)) =
      analyze_contract_with_gemini parse contract_text api_key model (.returns p) := by
  have hc : cleanResponse (fenceWrap tag p) = cleanResponse p := by
    rw [cleanResponse_fence_wrapped, cleanResponse_of_no_fence p h1 h2]
  simp only [analyze_contract_with_gemini, hc]

theorem analyze_fence_insensitive_witness :
    pyStartsWith fence (pyStrip (lit "[1, 2]")) = false ∧
    pyEndsWith fence (pyStrip (lit "[1, 2]")) = false ∧
    analyze_contract_with_gemini (fun _ => .ok Json.null) [] [] []
        (.returns (fenceWrap true (lit "[1, 2]"))) =
      analyze_contract_with_gemini (fun _ => .ok Json.null) [] [] []
        (.returns (lit "[1, 2]")) :=
  ⟨by decide, by decide,
   analyze_fence_insensitive (fun _ => .ok Json.null) [] [] [] (lit "[1, 2]") true
     (by decide) (by decide)⟩

/-- Claim C5 (amended): when the cleaned response fails to parse as JSON,
the analyzer returns exactly one finding whose risk type is
`"Analysis Error (JSON Decode)"`, whose clause text contains a prefix of at
most 100 characters of the *cleaned* response (the raw response after
fence stripping and trimming — not of the raw response itself), and whose
explanation contains the literal phrase `"Failed to analyze LLM response"`
together with the error message of the parser. -/
theorem analyze_json_decode_failure (parse : PyStr → Except PyStr Json)
    (contract_text api_key model raw e : PyStr)
    (h : parse (cleanResponse raw) = .error e) :
    ∃ f : ContractRisk,
      analyze_contract_with_gemini parse contract_text api_key model (.returns raw) =
        .ok ⟨[f]⟩ ∧
      f.risk_type = lit "Analysis Error (JSON Decode)" ∧
      ((cleanResponse raw).take 100) <:+: f.clause_text ∧
      (lit "Failed to analyze LLM response") <:+: f.explanation ∧
      e <:+: f.explanation := by
  refine ⟨⟨lit "Analysis Error (JSON Decode)",
    lit "Raw Response Start: " ++ (cleanResponse raw).take 100 ++ lit "...",
    lit "Failed to analyze LLM response. The model did not return valid JSON. Error: " ++ e,
    lit "Try again or use a \x27Pro\x27 model."⟩, ?_, rfl, ?_, ?_, ?_⟩
  · simp [analyze_contract_with_gemini, h, jsonDecodeHandler]
  · exact ⟨lit "Raw Response Start: ", lit "...", rfl⟩
  · have hp : (lit "Failed to analyze LLM response") <+:
        (lit "Failed to analyze LLM response. The model did not return valid JSON. Error: ") := by
      decide
    exact (hp.trans (List.prefix_append _ _)).isInfix
  · exact (List.suffix_append _ _).isInfix

theorem analyze_json_decode_failure_witness :
    ((fun _ : PyStr => (Except.error (lit "Expecting value") : Except PyStr Json))
      (cleanResponse (lit "not valid json")) = Except.error (lit "Expecting value")) ∧
    (∃ f : ContractRisk,
      analyze_contract_with_gemini
          (fun _ => (Except.error (lit "Expecting value") : Except PyStr Json))
          [] [] [] (.returns (lit "not valid json")) = .ok ⟨[f]⟩ ∧
      f.risk_type = lit "Analysis Error (JSON Decode)" ∧
      ((cleanResponse (lit "not valid json")).take 100) <:+: f.clause_text ∧
      (lit "Failed to analyze LLM response") <:+: f.explanation ∧
      (lit "Expecting value") <:+: f.explanation) :=
  ⟨rfl, analyze_json_decode_failure _ [] [] [] (lit "not valid json")
    (lit "Expecting value") rfl⟩

/-- Claim C5, refuted as stated: for a fence-wrapped non-JSON response the
clause text quotes the *cleaned* response, and no non-empty prefix of the
raw response occurs in it — every non-empty prefix of the raw response
starts with a backtick and the clause text contains no backtick.  In
particular the (at most 100 character) truncated prefix of the raw
response is not contained in the clause text. -/
theorem analyze_json_decode_counterexample :
    cleanResponse (lit "```json\nnot json\n```") = lit "not json" ∧
    analyze_contract_with_gemini
        (fun _ => (Except.error (lit "Expecting value: line 1 column 1") : Except PyStr Json))
        [] [] [] (.returns (lit "```json\nnot json\n```")) =
      .ok ⟨[⟨lit "Analysis Error (JSON Decode)",
            lit "Raw Response Start: not json...",
            lit "Failed to analyze LLM response. The model did not return valid JSON. Error: Expecting value: line 1 column 1",
            lit "Try again or use a \x27Pro\x27 model."⟩]⟩ ∧
    pyContains ((lit "```json\nnot json\n```").take 100)
      (lit "Raw Response Start: not json...") = false := by
  refine ⟨by decide, ?_, by decide⟩
  have hc : cleanResponse (lit "```json\nnot json\n```") = lit "not json" := by decide
  simp [analyze_contract_with_gemini, hc, jsonDecodeHandler]
  decide
